import Mathlib

/-!
Shallow embedding of the TotemOTP core orchestrator
(packages/core/src/totem-otp.ts), its error classes
(packages/core/src/errors), and the random-string generator
(packages/core/src/utils/generator.ts).

Modelling conventions:
- JavaScript exceptions are modelled by the inductive JSError; a function
  that can throw returns Except JSError.
- Epoch milliseconds and TTLs are Nat.
- Math.floor(Math.random() * n), which yields an arbitrary index in
  [0, n), is modelled by an arbitrary draw stream rand : Nat -> Nat
  reduced mod n; the i-th loop iteration uses draw rand i.
- The external capabilities (storage, delivery agent, validation receipt
  generator) are modelled as behaviour records: each method is a pure
  function from its arguments to an Except result, describing what the
  capability returns or throws on that call.  The orchestrator methods
  additionally return a CallLog recording every capability invocation
  with its arguments, so claims about which calls happen (and with which
  arguments) become statements about the log.
- The storage factory of the configuration and its lazy memoisation in
  the TotemOTP class are collapsed: the configuration directly holds the
  storage behaviour, which is what every claim observes.
-/

/-- Thrown JavaScript values.  Constructors mirror the error classes of
packages/core/src/errors (plus plain Error and non-Error throwables). -/
inductive JSError where
  | noSchemaMatchedTargetConfig : JSError
  | noDeliveryAgentMatchedConfig : JSError
  | otpMismatched : JSError
  | otpUsed (times : Nat) : JSError
  | resendBlocked (msUntilNextSend : Nat) : JSError
  | unmatchedValidationReceipt : JSError
  | validationReceiptError (msg : String) : JSError
  | deliveryFailed : JSError
  | otherError (msg : String) : JSError
  | nonErrorValue : JSError
deriving Repr, DecidableEq

/-- The .message property of each thrown value (none for a thrown
non-Error value).  Messages are taken verbatim from the constructors of
the error classes in packages/core/src/errors. -/
def JSError.message : JSError → Option String
  | .noSchemaMatchedTargetConfig => some "No schema matched the target configuration"
  | .noDeliveryAgentMatchedConfig => some "No delivery agent matched the configuration"
  | .otpMismatched => some "OTP value does not match"
  | .otpUsed times => some ("OTP Has been used too many times. " ++ toString times)
  | .resendBlocked ms => some ("Resend is being blocked for " ++ toString ms ++ "ms.")
  | .unmatchedValidationReceipt => some "No validation receipt generator implementation available"
  | .validationReceiptError msg => some ("Validation receipt error: " ++ msg)
  | .deliveryFailed => some "OTP delivery failed"
  | .otherError msg => some msg
  | .nonErrorValue => none

/-- OTPTargetType from packages/core/src/interfaces/index.ts. -/
inductive OTPTargetType where
  | msisdn : OTPTargetType
  | email : OTPTargetType
deriving Repr, DecidableEq

/-- String rendering used by template literals over the target type. -/
def OTPTargetType.render : OTPTargetType → String
  | .msisdn => "msisdn"
  | .email => "email"

/-- IOTPTarget from packages/core/src/interfaces/index.ts. -/
structure IOTPTarget where
  type : OTPTargetType
  value : String
  uniqueIdentifier : Option String
deriving Repr, DecidableEq

/-- IOTPValue from packages/core/src/interfaces/index.ts. -/
structure IOTPValue where
  target : IOTPTarget
  value : String
  reference : String
  expiresAtMs : Nat
  resendAllowedAtMs : Nat
deriving Repr, DecidableEq

/-- The record returned by IOTPStorage.fetchAndUsed:
IOTPValue plus the optional receiptId and the used counter. -/
structure FetchedOTPValue extends IOTPValue where
  receiptId : Option String
  used : Nat
deriving Repr, DecidableEq

/-- IValidationReceipt: the value returned by the receipt capability,
{target, purpose, expiresAtMs}. -/
structure IValidationReceipt where
  target : IOTPTarget
  purpose : List String
  expiresAtMs : Nat
deriving Repr, DecidableEq

/-- GenerationConfig from packages/core/src/utils/generator.ts.
length is Int because the source checks config.length <= 0. -/
structure GenerationConfig where
  charset : List String
  length : Int

/-- The aging block of IMatchableConfigurationSchema. -/
structure Aging where
  successValidateCount : Nat
  purgeFromDbIn : Nat
  canResendIn : Nat
  expiresIn : Nat

/-- IMatchableConfigurationSchema.  The optional match predicate is
called matchFn here because match is a Lean keyword. -/
structure IMatchableConfigurationSchema where
  matchFn : Option (IOTPTarget → Bool)
  otp : GenerationConfig
  reference : GenerationConfig
  aging : Aging

/-- Behaviour of a delivery agent: what sendMessageToAudience returns
or throws for a given OTP value. -/
structure IDeliveryAgent where
  sendMessageToAudience : IOTPValue → Except JSError String

/-- IMatchableConfigurationDeliveryAgent: optional predicate plus agent
factory. -/
structure IMatchableConfigurationDeliveryAgent where
  matchFn : Option (IOTPTarget → Bool)
  agent : Unit → IDeliveryAgent

/-- Behaviour of the storage capability (IOTPStorage): each method maps
its arguments to the value returned or the error thrown on that call. -/
structure IOTPStorage where
  markRequested : String → Nat → Except JSError Nat
  unmarkRequested : String → Except JSError Unit
  store : IOTPValue → Nat → Except JSError Unit
  fetchAndUsed : String → String → Except JSError (Option FetchedOTPValue)
  markAsSent : Option (String → String → String → Except JSError Unit)

/-- Behaviour of the validation receipt capability
(IValidationReceiptGenerator). -/
structure IValidationReceiptGenerator where
  createValidationReceipt : FetchedOTPValue → List String → Except JSError String
  validateReceipt : String → String → Except JSError IValidationReceipt

/-- ITotemOTPConfiguration: storage behaviour, ordered schema list,
ordered delivery agent list, optional receipt generator. -/
structure ITotemOTPConfiguration where
  storage : IOTPStorage
  schemas : List IMatchableConfigurationSchema
  deliveryAgents : List IMatchableConfigurationDeliveryAgent
  validationReceipt : Option IValidationReceiptGenerator

/-- The guard of the matcher loops: absent predicate counts as a match,
otherwise the predicate decides (source: !xs[i].match || xs[i].match(target)). -/
def matchesTarget (m : Option (IOTPTarget → Bool)) (t : IOTPTarget) : Bool :=
  match m with
  | none => true
  | some f => f t

/-- TotemOTP.matchSchema: first schema whose predicate is absent or true,
else NoSchemaMatchedTargetConfigError. -/
def matchSchema (schemas : List IMatchableConfigurationSchema) (target : IOTPTarget) :
    Except JSError IMatchableConfigurationSchema :=
  match schemas with
  | [] => .error .noSchemaMatchedTargetConfig
  | s :: rest =>
    if matchesTarget s.matchFn target then .ok s else matchSchema rest target

/-- TotemOTP.matchDeliveryAgent: first entry whose predicate is absent or
true, with its factory applied, else NoDeliveryAgentMatchedConfigError. -/
def matchDeliveryAgent (agents : List IMatchableConfigurationDeliveryAgent)
    (target : IOTPTarget) : Except JSError IDeliveryAgent :=
  match agents with
  | [] => .error .noDeliveryAgentMatchedConfig
  | a :: rest =>
    if matchesTarget a.matchFn target then .ok (a.agent ()) else matchDeliveryAgent rest target

/-- TotemOTP.toReceipientKey: target.uniqueIdentifier || type|value.
The JavaScript || falls through on the empty string (falsy), not merely
on an absent identifier. -/
def toReceipientKey (target : IOTPTarget) : String :=
  match target.uniqueIdentifier with
  | some u => if u = "" then target.type.render ++ "|" ++ target.value else u
  | none => target.type.render ++ "|" ++ target.value

/-- One character per iteration of the generator loop: the i-th draw,
reduced into the alphabet. -/
def generatedChars (rand : Nat → Nat) (alphabet : List Char) (n : Nat) : List Char :=
  (List.range n).map fun i => alphabet.getD (rand i % alphabet.length) ' '

/-- generateRandomString from packages/core/src/utils/generator.ts:
checks, in source order, empty charset list, non-positive length, empty
combined alphabet; then draws length characters from the combined
alphabet. -/
def generateRandomString (rand : Nat → Nat) (config : GenerationConfig) :
    Except JSError String :=
  if config.charset.length = 0 then
    .error (.otherError "Charset cannot be empty")
  else if config.length ≤ 0 then
    .error (.otherError "Length must be greater than 0")
  else
    let allCharacters := String.join config.charset
    if allCharacters.data.length = 0 then
      .error (.otherError "Combined charset cannot be empty")
    else
      .ok (String.mk (generatedChars rand allCharacters.data config.length.toNat))

/-- generateOTP: delegates to generateRandomString. -/
def generateOTP (rand : Nat → Nat) (config : GenerationConfig) : Except JSError String :=
  generateRandomString rand config

/-- generateReference: delegates to generateRandomString. -/
def generateReference (rand : Nat → Nat) (config : GenerationConfig) : Except JSError String :=
  generateRandomString rand config

/-- generateOTPAndReference: the OTP and the reference, generated by two
successive independent runs of the generator (the two segments of the
global Math.random draw stream are passed separately). -/
def generateOTPAndReference (randOtp randRef : Nat → Nat)
    (otpConfig referenceConfig : GenerationConfig) : Except JSError (String × String) :=
  match generateOTP randOtp otpConfig with
  | .error e => .error e
  | .ok otp =>
    match generateReference randRef referenceConfig with
    | .error e => .error e
    | .ok reference => .ok (otp, reference)

/-- Log of every capability invocation made by one orchestrator call,
with the arguments of each call, in call order per capability method. -/
structure CallLog where
  markRequestedCalls : List (String × Nat)
  unmarkRequestedCalls : List String
  storeCalls : List (IOTPValue × Nat)
  sendCalls : List IOTPValue
  markAsSentCalls : List (String × String × String)
deriving Repr, DecidableEq

/-- The log of an orchestrator call that made no capability call. -/
def CallLog.empty : CallLog := ⟨[], [], [], [], []⟩

/-- The catch block of TotemOTP.request: call unmarkRequested on the
recipient key, then rethrow the original error.  If unmarkRequested
itself throws, its rejection propagates instead (awaited before the
rethrow). -/
def requestCatch (storage : IOTPStorage) (key : String) (e : JSError) (log : CallLog) :
    Except JSError IOTPValue × CallLog :=
  let log := { log with unmarkRequestedCalls := log.unmarkRequestedCalls ++ [key] }
  match storage.unmarkRequested key with
  | .ok _ => (.error e, log)
  | .error e2 => (.error e2, log)

/-- TotemOTP.request: match schema and agent, sample now, generate
otp/reference, build the OTPValue, block-check the recipient via
markRequested (nonzero TTL throws ResendBlockedError), then store,
send, and optionally markAsSent inside the try block whose catch
releases the recipient block and rethrows. -/
def request (cfg : ITotemOTPConfiguration) (nowEpoch : Nat)
    (randOtp randRef : Nat → Nat) (target : IOTPTarget) :
    Except JSError IOTPValue × CallLog :=
  match matchSchema cfg.schemas target with
  | .error e => (.error e, CallLog.empty)
  | .ok schema =>
  match matchDeliveryAgent cfg.deliveryAgents target with
  | .error e => (.error e, CallLog.empty)
  | .ok agent =>
  match generateOTPAndReference randOtp randRef schema.otp schema.reference with
  | .error e => (.error e, CallLog.empty)
  | .ok generated =>
  let otpVal : IOTPValue :=
    { expiresAtMs := nowEpoch + schema.aging.expiresIn
      resendAllowedAtMs := nowEpoch + schema.aging.canResendIn
      reference := generated.2
      value := generated.1
      target := target }
  let key := toReceipientKey target
  let log0 : CallLog := { CallLog.empty with markRequestedCalls := [(key, schema.aging.canResendIn)] }
  match cfg.storage.markRequested key schema.aging.canResendIn with
  | .error e => (.error e, log0)
  | .ok ttls =>
  if ttls ≠ 0 then (.error (.resendBlocked ttls), log0)
  else
  let log1 := { log0 with storeCalls := [(otpVal, nowEpoch + schema.aging.purgeFromDbIn)] }
  match cfg.storage.store otpVal (nowEpoch + schema.aging.purgeFromDbIn) with
  | .error e => requestCatch cfg.storage key e log1
  | .ok _ =>
  let log2 := { log1 with sendCalls := [otpVal] }
  match agent.sendMessageToAudience otpVal with
  | .error e => requestCatch cfg.storage key e log2
  | .ok receiptId =>
  match cfg.storage.markAsSent with
  | none => (.ok otpVal, log2)
  | some markAsSent =>
  let log3 := { log2 with markAsSentCalls := [(generated.2, generated.1, receiptId)] }
  match markAsSent generated.2 generated.1 receiptId with
  | .error e => requestCatch cfg.storage key e log3
  | .ok _ => (.ok otpVal, log3)

/-- Result of TotemOTP.validate: the used count when no purpose list was
supplied, otherwise the receipt token. -/
inductive ValidateResult where
  | count (used : Nat) : ValidateResult
  | receipt (token : String) : ValidateResult
deriving Repr, DecidableEq

/-- TotemOTP.getValidationReceiptGenerator: the configured generator, or
UnmatchedValidationReceipt when none is configured. -/
def getValidationReceiptGenerator (cfg : ITotemOTPConfiguration) :
    Except JSError IValidationReceiptGenerator :=
  match cfg.validationReceipt with
  | some g => .ok g
  | none => .error .unmatchedValidationReceipt

/-- TotemOTP.validate: fetchAndUsed, null means OTPMismatchedError,
re-resolve the schema of the fetched target, over-limit used count means
OTPUsedError(used), then either return used or create a validation
receipt for the supplied purpose list. -/
def validate (cfg : ITotemOTPConfiguration) (reference otpValue : String)
    (purpose : Option (List String)) : Except JSError ValidateResult :=
  match cfg.storage.fetchAndUsed reference otpValue with
  | .error e => .error e
  | .ok none => .error .otpMismatched
  | .ok (some otpFromDb) =>
  match matchSchema cfg.schemas otpFromDb.target with
  | .error e => .error e
  | .ok schema =>
  let used := otpFromDb.used
  if used > schema.aging.successValidateCount then .error (.otpUsed used)
  else
  match purpose with
  | some purposes =>
    match getValidationReceiptGenerator cfg with
    | .error e => .error e
    | .ok generator =>
      match generator.createValidationReceipt otpFromDb purposes with
      | .error e => .error e
      | .ok token => .ok (.receipt token)
  | none => .ok (.count used)

/-- The catch block of TotemOTP.validateReceipt: a ValidationReceiptError
is rethrown unchanged; any other thrown value is wrapped in a new
ValidationReceiptError carrying its message (or the fallback text for a
thrown non-Error value). -/
def validateReceiptCatch (e : JSError) : JSError :=
  match e with
  | .validationReceiptError msg => .validationReceiptError msg
  | e => .validationReceiptError ((JSError.message e).getD "Invalid receipt")

/-- TotemOTP.validateReceipt: require the receipt generator, delegate to
its validateReceipt, then check expiry and purpose membership; every
error escaping the try block goes through the catch wrapper. -/
def validateReceipt (cfg : ITotemOTPConfiguration) (nowEpoch : Nat)
    (reference receipt purpose : String) : Except JSError IValidationReceipt :=
  match getValidationReceiptGenerator cfg with
  | .error e => .error e
  | .ok generator =>
  let tryBlock : Except JSError IValidationReceipt :=
    match generator.validateReceipt reference receipt with
    | .error e => .error e
    | .ok validationReceipt =>
      if validationReceipt.expiresAtMs ≤ nowEpoch then
        .error (.validationReceiptError "Receipt has expired")
      else if ¬ validationReceipt.purpose.contains purpose then
        .error (.validationReceiptError ("Receipt does not include purpose: " ++ purpose))
      else
        .ok validationReceipt
  match tryBlock with
  | .ok validationReceipt => .ok validationReceipt
  | .error e => .error (validateReceiptCatch e)

/-- A plain email target with no unique identifier. -/
def tEmail : IOTPTarget := ⟨.email, "a@b.com", none⟩

/-- An email target whose uniqueIdentifier is present but empty. -/
def tEmptyUid : IOTPTarget := ⟨.email, "a@b.com", some ""⟩

/-- An aging policy allowing two successful validations. -/
def agingStd : Aging := ⟨2, 1800000, 120000, 300000⟩

/-- Numeric 6-character OTP spec. -/
def otpSpec : GenerationConfig := ⟨["0123456789"], 6⟩

/-- Alphanumeric 8-character reference spec. -/
def refSpec : GenerationConfig := ⟨["ABCDEFGHIJKLMNOPQRSTUVWXYZ", "0123456789"], 8⟩

/-- A catch-all schema (no match predicate). -/
def schemaAll : IMatchableConfigurationSchema := ⟨none, otpSpec, refSpec, agingStd⟩

/-- A schema matching only msisdn targets. -/
def schemaMsisdnOnly : IMatchableConfigurationSchema :=
  ⟨some (fun t => decide (t.type = OTPTargetType.msisdn)), otpSpec, refSpec, agingStd⟩

/-- A catch-all delivery agent entry whose agent always succeeds. -/
def agentOk : IMatchableConfigurationDeliveryAgent :=
  ⟨none, fun _ => ⟨fun _ => .ok "receipt-1"⟩⟩

/-- A storage behaviour where every call succeeds and nothing is found. -/
def storageBase : IOTPStorage :=
  ⟨fun _ _ => .ok 0, fun _ => .ok (), fun _ _ => .ok (), fun _ _ => .ok none, none⟩

/-- A fetched record for tEmail with used count 2. -/
def recUsed2 : FetchedOTPValue := ⟨⟨tEmail, "123456", "REFA", 1000, 500⟩, none, 2⟩

/-- A fetched record for tEmail with used count 3. -/
def recUsed3 : FetchedOTPValue := ⟨⟨tEmail, "999999", "REFB", 1000, 500⟩, none, 3⟩

/-- Storage whose fetchAndUsed returns the given record exactly on its
own reference and value pair. -/
def storageFetch (rec : FetchedOTPValue) : IOTPStorage :=
  { storageBase with
    fetchAndUsed := fun r v =>
      if r = rec.reference ∧ v = rec.value then .ok (some rec) else .ok none }

/-- Configuration used by the C4 witness: nothing is ever found. -/
def cfgC4 : ITotemOTPConfiguration := ⟨storageBase, [schemaAll], [agentOk], none⟩

/-- Configuration used by the C10 witness: the record is found but the
only schema matches msisdn targets while the record targets an email. -/
def cfgC10 : ITotemOTPConfiguration :=
  ⟨storageFetch recUsed2, [schemaMsisdnOnly], [agentOk], none⟩

/-- Configuration used by the C1 witness: record with used = 2 under a
schema whose successValidateCount is 2 (the u = c boundary). -/
def cfgC1 : ITotemOTPConfiguration :=
  ⟨storageFetch recUsed2, [schemaAll], [agentOk], none⟩

/-- Configuration used by the C1 witness over-limit case: used = 3. -/
def cfgC1over : ITotemOTPConfiguration :=
  ⟨storageFetch recUsed3, [schemaAll], [agentOk], none⟩

/-- A receipt generator behaviour that issues a fixed token and accepts
a fixed receipt. -/
def genStub : IValidationReceiptGenerator :=
  ⟨fun _ _ => .ok "TOKEN-1", fun _ _ => .ok ⟨tEmail, ["login"], 5000⟩⟩

/-- Configuration with a fetchable record and no receipt generator. -/
def cfgC9none : ITotemOTPConfiguration :=
  ⟨storageFetch recUsed2, [schemaAll], [agentOk], none⟩

/-- Configuration with a fetchable record and the stub generator. -/
def cfgC9gen : ITotemOTPConfiguration :=
  ⟨storageFetch recUsed2, [schemaAll], [agentOk], some genStub⟩

/-- Generator behaviour that throws a plain Error from validateReceipt. -/
def genThrow : IValidationReceiptGenerator :=
  ⟨fun _ _ => .ok "TOKEN-1", fun _ _ => .error (.otherError "bad signature")⟩

/-- Configuration whose generator throws on validateReceipt. -/
def cfgC6throw : ITotemOTPConfiguration :=
  ⟨storageBase, [schemaAll], [agentOk], some genThrow⟩

/-- Configuration whose generator returns the stub receipt
(purpose list [login], expiry 5000). -/
def cfgC6ok : ITotemOTPConfiguration :=
  ⟨storageBase, [schemaAll], [agentOk], some genStub⟩

/-- Storage behaviour that reports the recipient as still blocked. -/
def storageBlocked : IOTPStorage :=
  { storageBase with markRequested := fun _ _ => .ok 45000 }

/-- Configuration used by the C3 witness. -/
def cfgC3 : ITotemOTPConfiguration := ⟨storageBlocked, [schemaAll], [agentOk], none⟩

/-- Configuration used by the C5 witness: everything succeeds. -/
def cfgC5 : ITotemOTPConfiguration := ⟨storageBase, [schemaAll], [agentOk], none⟩

/-- The OTP value produced by the C5 witness run at nowEpoch 1000. -/
def otpValC5 : IOTPValue := ⟨tEmail, "000000", "AAAAAAAA", 301000, 121000⟩

/-- The call log of the C5 witness run. -/
def logC5 : CallLog :=
  ⟨[("email|a@b.com", 120000)], [], [(otpValC5, 1801000)], [otpValC5], []⟩

/-- Storage behaviour whose store always throws. -/
def storageStoreFail : IOTPStorage :=
  { storageBase with store := fun _ _ => .error (.otherError "store failed") }

/-- Configuration whose store call fails, used by the C2 witness and the
C2 counterexample. -/
def cfgC2x : ITotemOTPConfiguration := ⟨storageStoreFail, [schemaAll], [agentOk], none⟩

/-- The recipient key exactly as the claim words it: uniqueIdentifier
whenever it is present, else type|value. -/
def claimRecipientKey (t : IOTPTarget) : String :=
  match t.uniqueIdentifier with
  | some u => u
  | none => t.type.render ++ "|" ++ t.value

/-! Helper lemmas about the matchers. -/

theorem matchSchema_eq_find (schemas : List IMatchableConfigurationSchema)
    (target : IOTPTarget) :
    matchSchema schemas target =
      (schemas.find? (fun s => matchesTarget s.matchFn target)).elim
        (Except.error JSError.noSchemaMatchedTargetConfig) Except.ok := by
  induction schemas with
  | nil => rfl
  | cons s rest ih =>
    by_cases h : matchesTarget s.matchFn target
    · simp [matchSchema, List.find?, h]
    · simp only [Bool.not_eq_true] at h
      simp [matchSchema, List.find?, h, ih]

theorem matchDeliveryAgent_eq_find (agents : List IMatchableConfigurationDeliveryAgent)
    (target : IOTPTarget) :
    matchDeliveryAgent agents target =
      (agents.find? (fun a => matchesTarget a.matchFn target)).elim
        (Except.error JSError.noDeliveryAgentMatchedConfig)
        (fun a => Except.ok (a.agent ())) := by
  induction agents with
  | nil => rfl
  | cons a rest ih =>
    by_cases h : matchesTarget a.matchFn target
    · simp [matchDeliveryAgent, List.find?, h]
    · simp only [Bool.not_eq_true] at h
      simp [matchDeliveryAgent, List.find?, h, ih]

theorem matchSchema_none (schemas : List IMatchableConfigurationSchema)
    (target : IOTPTarget)
    (h : ∀ s ∈ schemas, matchesTarget s.matchFn target = false) :
    matchSchema schemas target = .error .noSchemaMatchedTargetConfig := by
  rw [matchSchema_eq_find, List.find?_eq_none.mpr (fun s hs => by simp [h s hs])]
  rfl

theorem matchDeliveryAgent_none (agents : List IMatchableConfigurationDeliveryAgent)
    (target : IOTPTarget)
    (h : ∀ a ∈ agents, matchesTarget a.matchFn target = false) :
    matchDeliveryAgent agents target = .error .noDeliveryAgentMatchedConfig := by
  rw [matchDeliveryAgent_eq_find, List.find?_eq_none.mpr (fun a ha => by simp [h a ha])]
  rfl

/-- Claim C8: matchSchema returns the first schema entry whose match
predicate is absent or true on the target, matchDeliveryAgent returns
the agent built from the first qualifying delivery agent entry, each
fails with its dedicated error when the list is exhausted without a
match, and on schemas [A(false), B(true), C(true)] the result is B. -/
theorem claim_C8 :
    (∀ (schemas : List IMatchableConfigurationSchema) (target : IOTPTarget),
      matchSchema schemas target =
        (schemas.find? (fun s => matchesTarget s.matchFn target)).elim
          (Except.error JSError.noSchemaMatchedTargetConfig) Except.ok) ∧
    (∀ (agents : List IMatchableConfigurationDeliveryAgent) (target : IOTPTarget),
      matchDeliveryAgent agents target =
        (agents.find? (fun a => matchesTarget a.matchFn target)).elim
          (Except.error JSError.noDeliveryAgentMatchedConfig)
          (fun a => Except.ok (a.agent ()))) ∧
    (∀ (schemas : List IMatchableConfigurationSchema) (target : IOTPTarget),
      (∀ s ∈ schemas, matchesTarget s.matchFn target = false) →
      matchSchema schemas target = .error .noSchemaMatchedTargetConfig) ∧
    (∀ (agents : List IMatchableConfigurationDeliveryAgent) (target : IOTPTarget),
      (∀ a ∈ agents, matchesTarget a.matchFn target = false) →
      matchDeliveryAgent agents target = .error .noDeliveryAgentMatchedConfig) ∧
    (matchSchema
      [{ schemaAll with matchFn := some (fun _ => false) },
       { schemaAll with matchFn := some (fun _ => true) },
       { schemaMsisdnOnly with matchFn := some (fun _ => true) }] tEmail =
      .ok { schemaAll with matchFn := some (fun _ => true) }) :=
  ⟨matchSchema_eq_find, matchDeliveryAgent_eq_find, matchSchema_none,
   matchDeliveryAgent_none, rfl⟩

/-- Claim C8 witness: the exhausted-list conjunct instantiated at a
concrete target and schema list whose single predicate rejects it. -/
theorem claim_C8_witness :
    matchSchema [schemaMsisdnOnly] tEmail = .error .noSchemaMatchedTargetConfig :=
  claim_C8.2.2.1 [schemaMsisdnOnly] tEmail (by decide)

/-- Claim C4: whenever fetchAndUsed returns null, validate fails with
OTPMismatchedError, for any purpose argument; the unknown-reference case
and the wrong-value case are both this null case, so both produce the
one error kind with no observable difference at the validate interface. -/
theorem claim_C4 (cfg : ITotemOTPConfiguration) (reference otpValue : String)
    (hFetch : cfg.storage.fetchAndUsed reference otpValue = .ok none) :
    ∀ purpose : Option (List String),
      validate cfg reference otpValue purpose = .error .otpMismatched := by
  intro purpose
  simp [validate, hFetch]

/-- Claim C4 witness: an unknown reference and a known reference with a
wrong value both evaluate to the OTPMismatched error. -/
theorem claim_C4_witness :
    validate cfgC4 "NOSUCH" "123456" none = .error .otpMismatched ∧
    validate cfgC4 "REFA" "000000" (some ["login"]) = .error .otpMismatched :=
  ⟨claim_C4 cfgC4 "NOSUCH" "123456" rfl none,
   claim_C4 cfgC4 "REFA" "000000" rfl (some ["login"])⟩

/-- Claim C10: when fetchAndUsed returns a record whose target no
configured schema accepts, validate fails with
NoSchemaMatchedTargetConfigError rather than succeeding or failing with
OTPMismatchedError or OTPUsedError; the used counter increment performed
by fetchAndUsed has already happened at that point. -/
theorem claim_C10 (cfg : ITotemOTPConfiguration) (reference otpValue : String)
    (rec : FetchedOTPValue) (purpose : Option (List String))
    (hFetch : cfg.storage.fetchAndUsed reference otpValue = .ok (some rec))
    (hNone : ∀ s ∈ cfg.schemas, matchesTarget s.matchFn rec.target = false) :
    validate cfg reference otpValue purpose = .error .noSchemaMatchedTargetConfig := by
  simp [validate, hFetch, matchSchema_none cfg.schemas rec.target hNone]

/-- Claim C10 witness: validating the stored email-target record under a
msisdn-only schema list yields the NoSchemaMatched error. -/
theorem claim_C10_witness :
    validate cfgC10 "REFA" "123456" none = .error .noSchemaMatchedTargetConfig :=
  claim_C10 cfgC10 "REFA" "123456" recUsed2 none rfl (by decide)

/-- Claim C1: for a validate call without a purpose argument in which
fetchAndUsed returns a record with used count u and the first schema
matching the record target allows c successful validations: if u > c the
call fails with OTPUsedError carrying u, and otherwise (including u = c)
it returns u. -/
theorem claim_C1 (cfg : ITotemOTPConfiguration) (reference otpValue : String)
    (rec : FetchedOTPValue) (schema : IMatchableConfigurationSchema) (c : Nat)
    (hFetch : cfg.storage.fetchAndUsed reference otpValue = .ok (some rec))
    (hSchema : matchSchema cfg.schemas rec.target = .ok schema)
    (hc : schema.aging.successValidateCount = c) :
    (rec.used > c → validate cfg reference otpValue none = .error (.otpUsed rec.used)) ∧
    (rec.used ≤ c → validate cfg reference otpValue none = .ok (.count rec.used)) := by
  constructor
  · intro h
    simp [validate, hFetch, hSchema, hc, h]
  · intro h
    simp [validate, hFetch, hSchema, hc, Nat.not_lt.mpr h]

/-- Claim C1 witness: with successValidateCount = 2, a record fetched at
used = 2 still validates and returns 2, and a record fetched at used = 3
fails with OTPUsedError 3. -/
theorem claim_C1_witness :
    validate cfgC1 "REFA" "123456" none = .ok (.count 2) ∧
    validate cfgC1over "REFB" "999999" none = .error (.otpUsed 3) :=
  ⟨(claim_C1 cfgC1 "REFA" "123456" recUsed2 schemaAll 2 rfl rfl rfl).2 (by decide),
   (claim_C1 cfgC1over "REFB" "999999" recUsed3 schemaAll 2 rfl rfl rfl).1 (by decide)⟩

/-- Claim C9: with no receipt capability configured, validate with a
purpose argument fails with UnmatchedValidationReceipt once the fetch,
mismatch and used checks have passed, and validateReceipt fails with the
same error with the capability never consulted; with a capability
configured, validate with purpose returns exactly the token produced by
createValidationReceipt on the fetched record. -/
theorem claim_C9 :
    (∀ (cfg : ITotemOTPConfiguration) (reference otpValue : String)
       (rec : FetchedOTPValue) (schema : IMatchableConfigurationSchema)
       (purposes : List String),
      cfg.validationReceipt = none →
      cfg.storage.fetchAndUsed reference otpValue = .ok (some rec) →
      matchSchema cfg.schemas rec.target = .ok schema →
      rec.used ≤ schema.aging.successValidateCount →
      validate cfg reference otpValue (some purposes) =
        .error .unmatchedValidationReceipt) ∧
    (∀ (cfg : ITotemOTPConfiguration) (nowEpoch : Nat)
       (reference receipt purpose : String),
      cfg.validationReceipt = none →
      validateReceipt cfg nowEpoch reference receipt purpose =
        .error .unmatchedValidationReceipt) ∧
    (∀ (cfg : ITotemOTPConfiguration) (g : IValidationReceiptGenerator)
       (reference otpValue : String) (rec : FetchedOTPValue)
       (schema : IMatchableConfigurationSchema) (purposes : List String)
       (token : String),
      cfg.validationReceipt = some g →
      cfg.storage.fetchAndUsed reference otpValue = .ok (some rec) →
      matchSchema cfg.schemas rec.target = .ok schema →
      rec.used ≤ schema.aging.successValidateCount →
      g.createValidationReceipt rec purposes = .ok token →
      validate cfg reference otpValue (some purposes) = .ok (.receipt token)) := by
  refine ⟨?_, ?_, ?_⟩
  · intro cfg reference otpValue rec schema purposes hNoGen hFetch hSchema hUsed
    simp [validate, hFetch, hSchema, Nat.not_lt.mpr hUsed,
      getValidationReceiptGenerator, hNoGen]
  · intro cfg nowEpoch reference receipt purpose hNoGen
    simp [validateReceipt, getValidationReceiptGenerator, hNoGen]
  · intro cfg g reference otpValue rec schema purposes token hGen hFetch hSchema hUsed hCreate
    simp [validate, hFetch, hSchema, Nat.not_lt.mpr hUsed,
      getValidationReceiptGenerator, hGen, hCreate]

/-- Claim C9 witness: the three conjuncts applied at concrete inputs. -/
theorem claim_C9_witness :
    validate cfgC9none "REFA" "123456" (some ["login"]) =
      .error .unmatchedValidationReceipt ∧
    validateReceipt cfgC9none 0 "REFA" "tok" "login" =
      .error .unmatchedValidationReceipt ∧
    validate cfgC9gen "REFA" "123456" (some ["login"]) = .ok (.receipt "TOKEN-1") :=
  ⟨claim_C9.1 cfgC9none "REFA" "123456" recUsed2 schemaAll ["login"]
     rfl rfl rfl (by decide),
   claim_C9.2.1 cfgC9none 0 "REFA" "tok" "login" rfl,
   claim_C9.2.2 cfgC9gen genStub "REFA" "123456" recUsed2 schemaAll ["login"]
     "TOKEN-1" rfl rfl rfl (by decide) rfl⟩

/-- Claim C6: validateReceipt checks in order: a failure thrown by the
capability validateReceipt surfaces as a ValidationReceiptError whose
message preserves the original message (non-Error throwables get the
fallback text); then an expiresAtMs at or before now fails with the
expired ValidationReceiptError; then a purpose absent from the purpose
list (exact, case-sensitive membership) fails with the purpose-mismatch
ValidationReceiptError; otherwise the capability receipt is returned
unchanged. -/
theorem claim_C6 (cfg : ITotemOTPConfiguration) (g : IValidationReceiptGenerator)
    (nowEpoch : Nat) (reference receipt purpose : String)
    (hGen : cfg.validationReceipt = some g) :
    (∀ e : JSError, g.validateReceipt reference receipt = .error e →
      ∃ m, validateReceipt cfg nowEpoch reference receipt purpose =
          .error (.validationReceiptError m) ∧
        (e = .validationReceiptError m ∨ (JSError.message e).getD "Invalid receipt" = m)) ∧
    (∀ vr : IValidationReceipt, g.validateReceipt reference receipt = .ok vr →
      vr.expiresAtMs ≤ nowEpoch →
      validateReceipt cfg nowEpoch reference receipt purpose =
        .error (.validationReceiptError "Receipt has expired")) ∧
    (∀ vr : IValidationReceipt, g.validateReceipt reference receipt = .ok vr →
      nowEpoch < vr.expiresAtMs →
      vr.purpose.contains purpose = false →
      validateReceipt cfg nowEpoch reference receipt purpose =
        .error (.validationReceiptError ("Receipt does not include purpose: " ++ purpose))) ∧
    (∀ vr : IValidationReceipt, g.validateReceipt reference receipt = .ok vr →
      nowEpoch < vr.expiresAtMs →
      vr.purpose.contains purpose = true →
      validateReceipt cfg nowEpoch reference receipt purpose = .ok vr) := by
  refine ⟨?_, ?_, ?_, ?_⟩
  · intro e hThrow
    cases e with
    | validationReceiptError m =>
      exact ⟨m, by simp [validateReceipt, getValidationReceiptGenerator, hGen,
        hThrow, validateReceiptCatch], Or.inl rfl⟩
    | _ =>
      refine ⟨_, by simp [validateReceipt, getValidationReceiptGenerator, hGen,
        hThrow, validateReceiptCatch], Or.inr rfl⟩
  · intro vr hOk hExp
    simp [validateReceipt, getValidationReceiptGenerator, hGen, hOk, hExp,
      validateReceiptCatch]
  · intro vr hOk hExp hPurp
    have hMem : purpose ∉ vr.purpose := by simpa using hPurp
    simp [validateReceipt, getValidationReceiptGenerator, hGen, hOk,
      Nat.not_le.mpr hExp, hMem, validateReceiptCatch]
  · intro vr hOk hExp hPurp
    have hMem : purpose ∈ vr.purpose := by simpa using hPurp
    simp [validateReceipt, getValidationReceiptGenerator, hGen, hOk,
      Nat.not_le.mpr hExp, hMem]

/-- Claim C6 witness: the four conjuncts applied at concrete inputs:
a throwing capability is wrapped with its message, an expired receipt
fails expired, a missing purpose fails purpose mismatch, and a valid
fresh receipt with a contained purpose is returned unchanged. -/
theorem claim_C6_witness :
    (∃ m, validateReceipt cfgC6throw 0 "R" "T" "login" =
        .error (.validationReceiptError m) ∧
      ((JSError.otherError "bad signature") = .validationReceiptError m ∨
        (JSError.message (.otherError "bad signature")).getD "Invalid receipt" = m)) ∧
    validateReceipt cfgC6ok 5000 "R" "T" "login" =
      .error (.validationReceiptError "Receipt has expired") ∧
    validateReceipt cfgC6ok 0 "R" "T" "transfer" =
      .error (.validationReceiptError ("Receipt does not include purpose: " ++ "transfer")) ∧
    validateReceipt cfgC6ok 0 "R" "T" "login" = .ok ⟨tEmail, ["login"], 5000⟩ :=
  ⟨(claim_C6 cfgC6throw genThrow 0 "R" "T" "login" rfl).1
     (.otherError "bad signature") rfl,
   (claim_C6 cfgC6ok genStub 5000 "R" "T" "login" rfl).2.1
     ⟨tEmail, ["login"], 5000⟩ rfl (by decide),
   (claim_C6 cfgC6ok genStub 0 "R" "T" "transfer" rfl).2.2.1
     ⟨tEmail, ["login"], 5000⟩ rfl (by decide) (by decide),
   (claim_C6 cfgC6ok genStub 0 "R" "T" "login" rfl).2.2.2
     ⟨tEmail, ["login"], 5000⟩ rfl (by decide) (by decide)⟩

/-- The characters of a joined string are the flattened fragment
characters. -/
theorem data_join (ss : List String) :
    (String.join ss).data = (ss.map String.data).flatten := by
  rw [String.join_eq]

/-- An in-bounds getD lands in the list. -/
theorem getD_mem (l : List Char) (k : Nat) (h : k < l.length) : l.getD k ' ' ∈ l := by
  induction l generalizing k with
  | nil => simp at h
  | cons a t ih =>
    cases k with
    | zero => simp
    | succ k =>
      rw [List.getD_cons_succ]
      exact List.mem_cons_of_mem _ (ih k (by simpa using h))

/-- Claim C7: for a generation config with positive length and a
non-empty charset union, generateRandomString succeeds with a string of
exactly length characters, each drawn from the concatenation of all
charset fragments; it throws when the charset list is empty, all
fragments are empty, or length is non-positive (the generic Error
instances the spec groups as InvalidConfig); and generateOTPAndReference
pairs the two independently generated strings. -/
theorem claim_C7 :
    (∀ (rand : Nat → Nat) (config : GenerationConfig),
      0 < config.length → (String.join config.charset).data ≠ [] →
      ∃ s, generateRandomString rand config = .ok s ∧
        (s.data.length : Int) = config.length ∧
        ∀ c ∈ s.data, c ∈ (String.join config.charset).data) ∧
    (∀ (rand : Nat → Nat) (config : GenerationConfig),
      config.charset = [] ∨ (∀ f ∈ config.charset, f = "") ∨ config.length ≤ 0 →
      ∃ msg, generateRandomString rand config = .error (.otherError msg)) ∧
    (∀ (randOtp randRef : Nat → Nat) (oc rc : GenerationConfig) (o r : String),
      generateRandomString randOtp oc = .ok o →
      generateRandomString randRef rc = .ok r →
      generateOTPAndReference randOtp randRef oc rc = .ok (o, r)) := by
  refine ⟨?_, ?_, ?_⟩
  · intro rand config hLen hData
    have hCharset : ¬ config.charset.length = 0 := by
      intro h0
      exact hData (by simp [List.length_eq_zero.mp h0, data_join])
    have hNeg : ¬ config.length ≤ 0 := not_le.mpr hLen
    have hJoinPos : 0 < (String.join config.charset).data.length :=
      Nat.pos_of_ne_zero (fun h0 => hData (List.length_eq_zero.mp h0))
    refine ⟨String.mk (generatedChars rand (String.join config.charset).data
      config.length.toNat), ?_, ?_, ?_⟩
    · simp only [generateRandomString, if_neg hCharset, if_neg hNeg,
        if_neg hJoinPos.ne']
    · simp [generatedChars, Int.toNat_of_nonneg hLen.le]
    · intro c hc
      simp only [generatedChars, List.mem_map, List.mem_range] at hc
      obtain ⟨i, _, rfl⟩ := hc
      exact getD_mem _ _ (Nat.mod_lt _ hJoinPos)
  · intro rand config h
    by_cases h0 : config.charset.length = 0
    · exact ⟨"Charset cannot be empty", by simp only [generateRandomString, if_pos h0]⟩
    by_cases h1 : config.length ≤ 0
    · exact ⟨"Length must be greater than 0",
        by simp only [generateRandomString, if_neg h0, if_pos h1]⟩
    rcases h with h | h | h
    · exact absurd (by simp [h]) h0
    · have hJ : (String.join config.charset).data.length = 0 := by
        rw [data_join, List.flatten_eq_nil_iff.mpr]
        · rfl
        · intro x hx
          obtain ⟨f, hf, rfl⟩ := List.mem_map.mp hx
          simp [h f hf]
      exact ⟨"Combined charset cannot be empty",
        by simp only [generateRandomString, if_neg h0, if_neg h1, if_pos hJ]⟩
    · exact absurd h h1
  · intro randOtp randRef oc rc o r hO hR
    simp [generateOTPAndReference, generateOTP, generateReference, hO, hR]

/-- Claim C7 witness: the numeric six-digit spec succeeds, the empty
charset list fails, and the pairing conjunct applied to the two
generated strings. -/
theorem claim_C7_witness :
    (∃ s, generateRandomString (fun _ => 0) otpSpec = .ok s ∧
      (s.data.length : Int) = otpSpec.length ∧
      ∀ c ∈ s.data, c ∈ (String.join otpSpec.charset).data) ∧
    (∃ msg, generateRandomString (fun _ => 0) ⟨[], 5⟩ = .error (.otherError msg)) ∧
    generateOTPAndReference (fun _ => 0) (fun _ => 0) otpSpec refSpec =
      .ok ("000000", "AAAAAAAA") :=
  ⟨claim_C7.1 (fun _ => 0) otpSpec (by decide) (by decide),
   claim_C7.2.1 (fun _ => 0) ⟨[], 5⟩ (Or.inl rfl),
   claim_C7.2.2 (fun _ => 0) (fun _ => 0) otpSpec refSpec "000000" "AAAAAAAA"
     rfl rfl⟩

/-- The catch block never yields a successful result. -/
theorem requestCatch_ne_ok (storage : IOTPStorage) (key : String) (e : JSError)
    (log : CallLog) (v : IOTPValue) (log2 : CallLog) :
    requestCatch storage key e log ≠ (.ok v, log2) := by
  unfold requestCatch
  cases storage.unmarkRequested key <;> simp

/-- Claim C3: a request in which markRequested returns a nonzero TTL t
fails with ResendBlockedError t, with store, sendMessageToAudience,
markAsSent and unmarkRequested all never invoked: the log holds exactly
the one markRequested call. -/
theorem claim_C3 (cfg : ITotemOTPConfiguration) (nowEpoch : Nat)
    (randOtp randRef : Nat → Nat) (target : IOTPTarget)
    (schema : IMatchableConfigurationSchema) (agent : IDeliveryAgent)
    (generated : String × String) (t : Nat)
    (hS : matchSchema cfg.schemas target = .ok schema)
    (hA : matchDeliveryAgent cfg.deliveryAgents target = .ok agent)
    (hG : generateOTPAndReference randOtp randRef schema.otp schema.reference = .ok generated)
    (hM : cfg.storage.markRequested (toReceipientKey target) schema.aging.canResendIn = .ok t)
    (ht : t ≠ 0) :
    request cfg nowEpoch randOtp randRef target =
      (.error (.resendBlocked t),
       ⟨[(toReceipientKey target, schema.aging.canResendIn)], [], [], [], []⟩) := by
  simp [request, hS, hA, hG, hM, ht, CallLog.empty]

/-- Claim C3 witness: a blocked recipient yields ResendBlockedError
45000 and a log holding only the markRequested call. -/
theorem claim_C3_witness :
    request cfgC3 0 (fun _ => 0) (fun _ => 0) tEmail =
      (.error (.resendBlocked 45000), ⟨[("email|a@b.com", 120000)], [], [], [], []⟩) :=
  claim_C3 cfgC3 0 (fun _ => 0) (fun _ => 0) tEmail schemaAll
    ⟨fun _ => .ok "receipt-1"⟩ ("000000", "AAAAAAAA") 45000 rfl rfl rfl rfl
    (by decide)

/-- Claim C5: every successful request returns the OTPValue built from
the single sampled timestamp and the matched schema aging policy:
expiresAtMs = now + expiresIn, resendAllowedAtMs = now + canResendIn,
carrying the caller target and the generated otp and reference, and that
exact value is what was passed to store (with deletableAt =
now + purgeFromDbIn) and to sendMessageToAudience. -/
theorem claim_C5 (cfg : ITotemOTPConfiguration) (nowEpoch : Nat)
    (randOtp randRef : Nat → Nat) (target : IOTPTarget)
    (schema : IMatchableConfigurationSchema) (o r : String)
    (v : IOTPValue) (log : CallLog)
    (hS : matchSchema cfg.schemas target = .ok schema)
    (hG : generateOTPAndReference randOtp randRef schema.otp schema.reference = .ok (o, r))
    (hReq : request cfg nowEpoch randOtp randRef target = (.ok v, log)) :
    v = ⟨target, o, r, nowEpoch + schema.aging.expiresIn,
      nowEpoch + schema.aging.canResendIn⟩ ∧
    log.storeCalls = [(v, nowEpoch + schema.aging.purgeFromDbIn)] ∧
    log.sendCalls = [v] := by
  simp only [request, hS, hG] at hReq
  split at hReq
  · exact absurd hReq (by simp)
  · split at hReq
    · exact absurd hReq (by simp)
    · split at hReq
      · exact absurd hReq (by simp)
      · split at hReq
        · exact absurd hReq (requestCatch_ne_ok _ _ _ _ _ _)
        · split at hReq
          · exact absurd hReq (requestCatch_ne_ok _ _ _ _ _ _)
          · split at hReq
            · rw [Prod.mk.injEq, Except.ok.injEq] at hReq
              obtain ⟨rfl, rfl⟩ := hReq
              exact ⟨rfl, rfl, rfl⟩
            · split at hReq
              · exact absurd hReq (requestCatch_ne_ok _ _ _ _ _ _)
              · rw [Prod.mk.injEq, Except.ok.injEq] at hReq
                obtain ⟨rfl, rfl⟩ := hReq
                exact ⟨rfl, rfl, rfl⟩

/-- Claim C5 witness: the successful concrete run returns the value
built from nowEpoch 1000 and the schema aging, and passes it verbatim to
store and to the delivery agent. -/
theorem claim_C5_witness :
    otpValC5 = ⟨tEmail, "000000", "AAAAAAAA", 1000 + schemaAll.aging.expiresIn,
      1000 + schemaAll.aging.canResendIn⟩ ∧
    logC5.storeCalls = [(otpValC5, 1000 + schemaAll.aging.purgeFromDbIn)] ∧
    logC5.sendCalls = [otpValC5] :=
  claim_C5 cfgC5 1000 (fun _ => 0) (fun _ => 0) tEmail schemaAll "000000" "AAAAAAAA"
    otpValC5 logC5 rfl rfl rfl

/-- Claim C2 (amended): when store, sendMessageToAudience or markAsSent
throws inside a request whose earlier steps succeeded and whose
compensating unmarkRequested succeeds, the orchestrator calls
unmarkRequested exactly once with the same recipient key previously
passed to markRequested (uniqueIdentifier when present and non-empty,
else type|value), re-raises the original error unchanged, and issues no
further storage call: the record written by store is left as stored. -/
theorem claim_C2 (cfg : ITotemOTPConfiguration) (nowEpoch : Nat)
    (randOtp randRef : Nat → Nat) (target : IOTPTarget)
    (schema : IMatchableConfigurationSchema) (agent : IDeliveryAgent)
    (o r : String) (e : JSError) (otpVal : IOTPValue) (key : String)
    (hS : matchSchema cfg.schemas target = .ok schema)
    (hA : matchDeliveryAgent cfg.deliveryAgents target = .ok agent)
    (hG : generateOTPAndReference randOtp randRef schema.otp schema.reference = .ok (o, r))
    (hKey : key = toReceipientKey target)
    (hOtp : otpVal = ⟨target, o, r, nowEpoch + schema.aging.expiresIn,
      nowEpoch + schema.aging.canResendIn⟩)
    (hM : cfg.storage.markRequested key schema.aging.canResendIn = .ok 0)
    (hU : cfg.storage.unmarkRequested key = .ok ())
    (hFail :
      cfg.storage.store otpVal (nowEpoch + schema.aging.purgeFromDbIn) = .error e ∨
      (cfg.storage.store otpVal (nowEpoch + schema.aging.purgeFromDbIn) = .ok () ∧
        agent.sendMessageToAudience otpVal = .error e) ∨
      (∃ receiptId mas,
        cfg.storage.store otpVal (nowEpoch + schema.aging.purgeFromDbIn) = .ok () ∧
        agent.sendMessageToAudience otpVal = .ok receiptId ∧
        cfg.storage.markAsSent = some mas ∧
        mas r o receiptId = .error e)) :
    ∃ log, request cfg nowEpoch randOtp randRef target = (.error e, log) ∧
      log.markRequestedCalls = [(key, schema.aging.canResendIn)] ∧
      log.unmarkRequestedCalls = [key] ∧
      log.storeCalls = [(otpVal, nowEpoch + schema.aging.purgeFromDbIn)] := by
  subst hKey
  subst hOtp
  rcases hFail with hSt | ⟨hSt, hSe⟩ | ⟨receiptId, mas, hSt, hSe, hMas, hMasE⟩
  · refine ⟨⟨[(toReceipientKey target, schema.aging.canResendIn)],
      [toReceipientKey target],
      [(⟨target, o, r, nowEpoch + schema.aging.expiresIn,
        nowEpoch + schema.aging.canResendIn⟩,
        nowEpoch + schema.aging.purgeFromDbIn)], [], []⟩, ?_, rfl, rfl, rfl⟩
    simp [request, hS, hA, hG, hM, hSt, requestCatch, hU, CallLog.empty]
  · refine ⟨⟨[(toReceipientKey target, schema.aging.canResendIn)],
      [toReceipientKey target],
      [(⟨target, o, r, nowEpoch + schema.aging.expiresIn,
        nowEpoch + schema.aging.canResendIn⟩,
        nowEpoch + schema.aging.purgeFromDbIn)],
      [⟨target, o, r, nowEpoch + schema.aging.expiresIn,
        nowEpoch + schema.aging.canResendIn⟩], []⟩, ?_, rfl, rfl, rfl⟩
    simp [request, hS, hA, hG, hM, hSt, hSe, requestCatch, hU, CallLog.empty]
  · refine ⟨⟨[(toReceipientKey target, schema.aging.canResendIn)],
      [toReceipientKey target],
      [(⟨target, o, r, nowEpoch + schema.aging.expiresIn,
        nowEpoch + schema.aging.canResendIn⟩,
        nowEpoch + schema.aging.purgeFromDbIn)],
      [⟨target, o, r, nowEpoch + schema.aging.expiresIn,
        nowEpoch + schema.aging.canResendIn⟩],
      [(r, o, receiptId)]⟩, ?_, rfl, rfl, rfl⟩
    simp [request, hS, hA, hG, hM, hSt, hSe, hMas, hMasE, requestCatch, hU,
      CallLog.empty]

/-- Claim C2 counterexample: for a target whose uniqueIdentifier is
present but empty, a request whose store throws calls unmarkRequested
with email|a@b.com, the fallback key, not with the present (empty)
uniqueIdentifier the claim prescribes: the JavaScript || treats the
empty string as absent. -/
theorem claim_C2_counterexample :
    (request cfgC2x 0 (fun _ => 0) (fun _ => 0) tEmptyUid).1 =
      .error (.otherError "store failed") ∧
    (request cfgC2x 0 (fun _ => 0) (fun _ => 0) tEmptyUid).2.unmarkRequestedCalls =
      ["email|a@b.com"] ∧
    claimRecipientKey tEmptyUid = "" ∧
    (request cfgC2x 0 (fun _ => 0) (fun _ => 0) tEmptyUid).2.unmarkRequestedCalls ≠
      [claimRecipientKey tEmptyUid] :=
  ⟨rfl, rfl, rfl, by decide⟩

/-- Claim C2 witness: on a target without uniqueIdentifier, a failing
store leads to exactly one unmarkRequested call with the markRequested
key, the store error re-raised, and the stored record left as written. -/
theorem claim_C2_witness :
    ∃ log, request cfgC2x 0 (fun _ => 0) (fun _ => 0) tEmail =
        (.error (.otherError "store failed"), log) ∧
      log.markRequestedCalls = [("email|a@b.com", 120000)] ∧
      log.unmarkRequestedCalls = ["email|a@b.com"] ∧
      log.storeCalls = [(⟨tEmail, "000000", "AAAAAAAA", 300000, 120000⟩, 1800000)] :=
  claim_C2 cfgC2x 0 (fun _ => 0) (fun _ => 0) tEmail schemaAll
    ⟨fun _ => .ok "receipt-1"⟩ "000000" "AAAAAAAA" (.otherError "store failed")
    ⟨tEmail, "000000", "AAAAAAAA", 300000, 120000⟩ "email|a@b.com"
    rfl rfl rfl rfl rfl rfl rfl (Or.inl rfl)
